import Mathlib

set_option maxRecDepth 10000

/-!
Verification of the podcast search/download/transcription pipeline
(`podcast_gui.py` and `podcasting-index.py`) against its design
specification.  The Python operations are shallowly embedded as pure
Lean functions; network and model outcomes are passed in explicitly,
and the filesystem is an explicit association list from paths to
contents.
-/

namespace Podcast

/-! ### Python string primitives used by the source -/

/-- Whitespace characters stripped by Python `str.strip()` (ASCII range;
the source only ever strips user queries and model segment text). -/
def isPySpace (c : Char) : Bool :=
  c = ' ' || c = '\t' || c = '\n' || c = '\x0d' || c = '\x0b' || c = '\x0c'

/-- Python `s.strip()`: drop leading and trailing whitespace. -/
def pyStrip (s : String) : String :=
  ⟨((s.data.dropWhile isPySpace).reverse.dropWhile isPySpace).reverse⟩

/-- Python `s.split("?")[0]`: the prefix of `s` before the first `'?'`. -/
def stripQuery (s : String) : String :=
  ⟨s.data.takeWhile (fun c => c ≠ '?')⟩

/-- Python `os.path.basename(s)`: the suffix after the last `'/'`. -/
def pyBasename (s : String) : String :=
  ⟨(s.data.reverse.takeWhile (fun c => c ≠ '/')).reverse⟩

/-- Index of the last `'.'` in a character list, if any. -/
def lastDotIdx (b : List Char) : Option Nat :=
  ((List.range b.length).filter (fun i => b.getD i ' ' = '.')).getLast?

/-- Python `os.path.splitext(b)[0]` for a basename `b`: everything before
the last `'.'`, except that a basename consisting only of leading dots
before that `'.'` is not split. -/
def pySplitExtRoot (s : String) : String :=
  match lastDotIdx s.data with
  | none => s
  | some j =>
      if (s.data.take j).any (fun c => c ≠ '.') then ⟨s.data.take j⟩ else s

/-- `os.path.join(dir, name)` for a relative `name` (the source only ever
joins a directory with a basename, which contains no slash). -/
def pathJoin (dir name : String) : String := dir ++ "/" ++ name

/-! ### SHA-1 (the digest `hashlib.sha1(...).hexdigest()` computes)

Implemented over byte lists with `Nat` arithmetic mod `2 ^ 32`. -/

/-- Left-rotation of a 32-bit word. -/
def rotl32 (n x : Nat) : Nat :=
  ((x <<< n) ||| (x >>> (32 - n))) % 4294967296

/-- Big-endian bytes of `n`, `k` bytes wide. -/
def natToBytesBE (k n : Nat) : List Nat :=
  (List.range k).map (fun i => (n >>> (8 * (k - 1 - i))) % 256)

/-- Group a byte list into big-endian 32-bit words. -/
def bytesToWords : List Nat → List Nat
  | a :: b :: c :: d :: rest =>
      (((a * 256 + b) * 256 + c) * 256 + d) :: bytesToWords rest
  | _ => []

/-- SHA-1 padding: append `0x80`, zero bytes to 56 mod 64, then the
bit length as 8 big-endian bytes. -/
def sha1Pad (msg : List Nat) : List Nat :=
  let padZeros := (119 - msg.length % 64) % 64
  msg ++ (128 :: List.replicate padZeros 0) ++ natToBytesBE 8 (msg.length * 8)

/-- Extend the 16 chunk words to the 80-word schedule.  `acc` holds the
schedule so far, newest first; `fuel` counts the words still to add. -/
def sha1Extend : Nat → List Nat → List Nat
  | 0, acc => acc.reverse
  | fuel + 1, acc =>
      let w := rotl32 1 ((acc.getD 2 0) ^^^ (acc.getD 7 0) ^^^
        (acc.getD 13 0) ^^^ (acc.getD 15 0))
      sha1Extend fuel (w :: acc)

/-- One SHA-1 round: round index `i`, schedule word `w`, state `(a,b,c,d,e)`. -/
def sha1Round (i w : Nat) : Nat × Nat × Nat × Nat × Nat → Nat × Nat × Nat × Nat × Nat :=
  fun (a, b, c, d, e) =>
    let f :=
      if i < 20 then (b &&& c) ||| ((b ^^^ 4294967295) &&& d)
      else if i < 40 then b ^^^ c ^^^ d
      else if i < 60 then (b &&& c) ||| (b &&& d) ||| (c &&& d)
      else b ^^^ c ^^^ d
    let k :=
      if i < 20 then 1518500249
      else if i < 40 then 1859775393
      else if i < 60 then 2400959708
      else 3395469782
    let temp := (rotl32 5 a + f + e + k + w) % 4294967296
    (temp, a, rotl32 30 b, c, d)

/-- Run the 80 rounds of one chunk from state `st`. -/
def sha1Rounds (ws : List Nat) (st : Nat × Nat × Nat × Nat × Nat) :
    Nat × Nat × Nat × Nat × Nat :=
  (ws.enum.foldl (fun s p => sha1Round p.1 p.2 s) st)

/-- Process one 64-byte chunk into the running hash state. -/
def sha1Chunk (h : Nat × Nat × Nat × Nat × Nat) (chunk : List Nat) :
    Nat × Nat × Nat × Nat × Nat :=
  let ws := sha1Extend 64 (bytesToWords chunk).reverse
  let (h0, h1, h2, h3, h4) := h
  let (a, b, c, d, e) := sha1Rounds ws h
  ((h0 + a) % 4294967296, (h1 + b) % 4294967296, (h2 + c) % 4294967296,
   (h3 + d) % 4294967296, (h4 + e) % 4294967296)

/-- Split a byte list into 64-byte chunks (`fuel` bounds the recursion). -/
def chunks64Aux : Nat → List Nat → List (List Nat)
  | 0, _ => []
  | _, [] => []
  | fuel + 1, l => l.take 64 :: chunks64Aux fuel (l.drop 64)

def chunks64 (l : List Nat) : List (List Nat) :=
  chunks64Aux (l.length / 64 + 1) l

/-- The five 32-bit words of the SHA-1 digest of a byte message. -/
def sha1Words (msg : List Nat) : Nat × Nat × Nat × Nat × Nat :=
  (chunks64 (sha1Pad msg)).foldl sha1Chunk
    (1732584193, 4023233417, 2562383102, 271733878, 3285377520)

/-- Lower-case hex digit. -/
def hexChar (n : Nat) : Char :=
  if n < 10 then Char.ofNat (48 + n) else Char.ofNat (87 + n)

/-- `k`-nibble big-endian lower-case hex rendering of `n`. -/
def hexNat (k n : Nat) : String :=
  ⟨(List.range k).map (fun i => hexChar ((n >>> (4 * (k - 1 - i))) % 16))⟩

/-- UTF-8 encoding of one character (what Python `str.encode()` does). -/
def utf8EncodeChar (c : Char) : List Nat :=
  let n := c.toNat
  if n < 128 then [n]
  else if n < 2048 then [192 ||| (n >>> 6), 128 ||| (n &&& 63)]
  else if n < 65536 then
    [224 ||| (n >>> 12), 128 ||| ((n >>> 6) &&& 63), 128 ||| (n &&& 63)]
  else
    [240 ||| (n >>> 18), 128 ||| ((n >>> 12) &&& 63),
     128 ||| ((n >>> 6) &&& 63), 128 ||| (n &&& 63)]

/-- UTF-8 bytes of a string. -/
def strUtf8 (s : String) : List Nat := (s.data.map utf8EncodeChar).flatten

/-- Python `hashlib.sha1(s.encode()).hexdigest()`. -/
def sha1Hex (s : String) : String :=
  let (h0, h1, h2, h3, h4) := sha1Words (strUtf8 s)
  hexNat 8 h0 ++ hexNat 8 h1 ++ hexNat 8 h2 ++ hexNat 8 h3 ++ hexNat 8 h4

/-! ### Search request authentication

Both sources build the same header dictionary for the index search
request; only the `User-Agent` string differs. -/

structure Headers where
  xAuthDate : String
  xAuthKey : String
  authorization : String
  userAgent : String
deriving DecidableEq, Repr

/-- The headers `PodcastTranscriberGUI.search_podcasts` attaches:
`epoch_time = int(time.time())`, `data_to_hash = api_key + api_secret +
str(epoch_time)`, `sha_1 = hashlib.sha1(data_to_hash.encode()).hexdigest()`. -/
def searchHeadersGUI (apiKey apiSecret : String) (epochTime : Nat) : Headers :=
  { xAuthDate := toString epochTime
    xAuthKey := apiKey
    authorization := sha1Hex (apiKey ++ apiSecret ++ toString epochTime)
    userAgent := "postcasting-index-python-gui" }

/-- The headers the CLI script builds (identical computation, CLI agent). -/
def searchHeadersCLI (apiKey apiSecret : String) (epochTime : Nat) : Headers :=
  { xAuthDate := toString epochTime
    xAuthKey := apiKey
    authorization := sha1Hex (apiKey ++ apiSecret ++ toString epochTime)
    userAgent := "postcasting-index-python-cli" }

/-- The CLI builds `url = base + query` and unconditionally performs
`requests.post(url, headers=headers)`: there is no branch between the
argument parsing and the request, so a request is always issued (`some`).
The query is used verbatim, with no trimming or emptiness check. -/
def cliSearchPost (apiKey apiSecret searchQuery : String) (epochTime : Nat) :
    Option (String × Headers) :=
  some ("https://api.podcastindex.org/api/1.0/search/byterm?q=" ++ searchQuery,
        searchHeadersCLI apiKey apiSecret epochTime)

/-! ### Feed data model -/

structure Enclosure where
  href : String
deriving DecidableEq, Repr

structure Entry where
  title : String
  enclosures : List Enclosure
deriving DecidableEq, Repr

structure Feed where
  title : String
  url : String
deriving DecidableEq, Repr

/-- `entry.enclosures[0].href if entry.enclosures else None`. -/
def audioUrlOf (entry : Entry) : Option String :=
  match entry.enclosures with
  | [] => none
  | e :: _ => some e.href

/-- Python truthiness of the optional audio url: `None` and `""` are falsy
(the source tests `if not audio_url` / `if audio_url`). -/
def pyTruthy : Option String → Bool
  | none => false
  | some s => s ≠ ""

/-- `parsed.entries[:10]`: both sources truncate the parsed feed to at
most 10 entries, in feed order. -/
def resolveEpisodes (entries : List Entry) : List Entry := entries.take 10

inductive DialogKind where
  | information
  | warning
  | critical
deriving DecidableEq, Repr

/-- Result of `PodcastTranscriberGUI.show_episodes` on a parsed feed:
the episode list shown, the stored `current_episodes` (`none` = left
unchanged), and any dialog raised. -/
structure EpisodesView where
  episodesListItems : List String
  currentEpisodes : Option (List Entry)
  dialog : Option (DialogKind × String)
deriving DecidableEq, Repr

def showEpisodes (entries : List Entry) : EpisodesView :=
  if entries.isEmpty then
    ⟨[], none, some (.information, "No episodes found")⟩
  else
    ⟨(resolveEpisodes entries).map Entry.title, some (resolveEpisodes entries), none⟩

/-! ### Filesystem model

An association list from paths to file contents; `fsWrite` is `open(path,
"wb")`/`open(path, "w")` followed by a full write, which replaces any
existing file at that path. -/

abbrev FS := List (String × String)

def fsWrite (fs : FS) (path content : String) : FS :=
  (path, content) :: fs.filter (fun p => p.1 ≠ path)

def fsRead (fs : FS) (path : String) : Option String :=
  (fs.find? (fun p => p.1 = path)).map (fun p => p.2)

/-! ### Download and transcription -/

/-- `filename = os.path.basename(audio_url.split("?")[0])` (both sources). -/
def urlFilename (audioUrl : String) : String := pyBasename (stripQuery audioUrl)

/-- Outcome of the audio fetch, supplied by the environment.  A transport
error models the `requests` exception raised by `requests.get` or
`raise_for_status` (before the output file is opened). -/
inductive FetchOutcome where
  | success (content : String)
  | transportError (msg : String)
deriving DecidableEq, Repr

/-- Outcome of Whisper transcription, supplied by the environment; `failure`
covers any exception (model load, inference, write). -/
inductive TransOutcome where
  | success (segments : List String)
  | failure (msg : String)
deriving DecidableEq, Repr

/-- Signals `DownloadWorker` can emit: `finished(filepath)` or `error(str(e))`. -/
inductive DlEvent where
  | finished (filepath : String)
  | error (msg : String)
deriving DecidableEq, Repr

/-- `DownloadWorker.run`: `filepath = os.path.join("downloads",
self.filename)`; on success the streamed body is written to `filepath`
and `finished` is emitted; on an exception `error(str(e))` is emitted and
nothing is written. -/
def downloadWorkerRun (fs : FS) (filename : String) (outcome : FetchOutcome) :
    FS × DlEvent :=
  let filepath := pathJoin "downloads" filename
  match outcome with
  | .success content => (fsWrite fs filepath content, .finished filepath)
  | .transportError msg => (fs, .error msg)

/-- `"\n".join(seg["text"].strip() for seg in segments)` as the GUI
`TranscriptionWorker` formats it (no trailing newline). -/
def formatTranscriptGUI (segments : List String) : String :=
  String.intercalate "\n" (segments.map pyStrip)

/-- `"\n".join(...) + "\n"` as the CLI formats it (trailing newline). -/
def formatTranscriptCLI (segments : List String) : String :=
  String.intercalate "\n" (segments.map pyStrip) ++ "\n"

/-- The transcript file content as the specification words it: the trimmed
segment texts joined with newline separators, one line per segment, with a
trailing newline. -/
def specTranscriptContent (segments : List String) : String :=
  String.intercalate "\n" (segments.map pyStrip) ++ "\n"

/-- `txt_out = os.path.join("transcriptions", base_name + ".txt")` with
`base_name = os.path.splitext(os.path.basename(p))[0]` (both sources). -/
def transcriptPath (p : String) : String :=
  pathJoin "transcriptions" (pySplitExtRoot (pyBasename p) ++ ".txt")

/-- Signals `TranscriptionWorker` can emit. -/
inductive TransEvent where
  | finished (formatted txtOut : String)
  | error (msg : String)
deriving DecidableEq, Repr

/-- `TranscriptionWorker.run`: on success, format the segments, write the
file (overwriting), emit `finished(formatted, txt_out)`; on an exception
emit `error(str(e))`. -/
def transcriptionWorkerRun (fs : FS) (audioPath : String) (outcome : TransOutcome) :
    FS × TransEvent :=
  match outcome with
  | .failure msg => (fs, .error msg)
  | .success segments =>
      let formatted := formatTranscriptGUI segments
      let txtOut := transcriptPath audioPath
      (fsWrite fs txtOut formatted, .finished formatted txtOut)

/-! ### GUI pipeline for one selected episode

`download_episode` checks the enclosure, then starts `DownloadWorker`;
its `finished` signal is connected to `start_transcription` (which starts
`TranscriptionWorker`), its `error` signal to `show_error`.  The spec's
WorkUnit maps onto the observable result: `Failed` = error dialog plus
label `"Status: Error occurred"` and no completion, `Done` = the
transcription display filled and the saved-to label set. -/

structure PipelineResult where
  fs : FS
  downloadStarted : Bool
  transcriberInvoked : Bool
  dialog : Option (DialogKind × String)
  statusLabel : Option String
  transcriptionDisplay : Option String
deriving DecidableEq, Repr

def runPipeline (fs : FS) (entry : Entry) (fetch : FetchOutcome)
    (trans : TransOutcome) : PipelineResult :=
  let audioUrl := audioUrlOf entry
  if pyTruthy audioUrl = false then
    ⟨fs, false, false, some (.warning, "No audio found for this episode"), none, none⟩
  else
    let filename := urlFilename (audioUrl.getD "")
    match downloadWorkerRun fs filename fetch with
    | (fs1, .error msg) =>
        ⟨fs1, true, false, some (.critical, msg), some "Status: Error occurred", none⟩
    | (fs1, .finished filepath) =>
        match transcriptionWorkerRun fs1 filepath trans with
        | (fs2, .error msg) =>
            ⟨fs2, true, true, some (.critical, msg), some "Status: Error occurred", none⟩
        | (fs2, .finished formatted txtOut) =>
            ⟨fs2, true, true, none,
             some ("Status: Transcription saved to " ++ txtOut), some formatted⟩

/-! ### GUI search -/

/-- Outcome of the search `requests.post`, supplied by the environment.
`httpOk` is a successful response with its decoded `feeds` array;
`httpError` is a response with an error status (4xx/5xx, the range for
which `raise_for_status` raises); `transportError` is a transport-level
failure (timeout, DNS, connection reset). -/
inductive SearchOutcome where
  | httpOk (feeds : List Feed)
  | httpError (status : Nat) (body : String)
  | transportError (msg : String)
deriving DecidableEq, Repr

def SearchOutcome.isFailure : SearchOutcome → Bool
  | .httpOk _ => false
  | _ => true

/-- The message of the `requests.HTTPError` raised by `raise_for_status`
(abridged: the real message also carries the reason phrase and URL). -/
def httpErrorMsg (status : Nat) : String :=
  toString status ++ (if status < 500 then " Client Error" else " Server Error")

inductive GuiEvent where
  | listsCleared
  | requestSent (headers : Headers)
  | resultsPopulated (titles : List String)
deriving DecidableEq, Repr

/-- The widget state `search_podcasts` reads and writes. -/
structure GuiState where
  resultsList : List String
  episodesList : List String
  transcriptionDisplay : String
  currentFeed : Option (List Feed)
deriving DecidableEq, Repr

structure SearchRun where
  state : GuiState
  events : List GuiEvent
  dialog : Option (DialogKind × String)
deriving DecidableEq, Repr

/-- `PodcastTranscriberGUI.search_podcasts`: credential check, query
trim-and-check, clearing of the three widgets, then the signed request;
every exception from the try block lands in one generic handler that shows
`Search failed: <message>` in a critical dialog. -/
def searchPodcasts (st : GuiState) (apiKey apiSecret : Option String)
    (rawQuery : String) (epochTime : Nat) (outcome : SearchOutcome) : SearchRun :=
  if (pyTruthy apiKey && pyTruthy apiSecret) = false then
    ⟨st, [], some (.warning, "API keys not configured")⟩
  else
    let query := pyStrip rawQuery
    if query = "" then
      ⟨st, [], some (.warning, "Please enter a search query")⟩
    else
      let cleared : GuiState :=
        { st with resultsList := [], episodesList := [], transcriptionDisplay := "" }
      let headers := searchHeadersGUI (apiKey.getD "") (apiSecret.getD "") epochTime
      match outcome with
      | .transportError msg =>
          ⟨cleared, [.listsCleared, .requestSent headers],
           some (.critical, "Search failed: " ++ msg)⟩
      | .httpError status _ =>
          ⟨cleared, [.listsCleared, .requestSent headers],
           some (.critical, "Search failed: " ++ httpErrorMsg status)⟩
      | .httpOk feeds =>
          if feeds.isEmpty then
            ⟨cleared, [.listsCleared, .requestSent headers],
             some (.information, "No podcasts found")⟩
          else
            ⟨{ cleared with resultsList := feeds.map Feed.title, currentFeed := some feeds },
             [.listsCleared, .requestSent headers, .resultsPopulated (feeds.map Feed.title)],
             none⟩

/-- The error taxonomy the specification prescribes for `search`. -/
inductive SpecErrorKind where
  | authError
  | serviceError
  | networkError
deriving DecidableEq, Repr

/-- The classification the specification words demand: `AuthError` on
401/403-class statuses, `ServiceError` on other non-2xx, `NetworkError`
on transport failure. -/
def specSearchErrorKind : SearchOutcome → Option SpecErrorKind
  | .httpOk _ => none
  | .httpError status _ =>
      if status = 401 ∨ status = 403 then some .authError else some .serviceError
  | .transportError _ => some .networkError

/-! ### CLI behaviour -/

inductive CliRespAction where
  | processFeeds (feeds : List Feed)
  | printedError (line : String)
  | uncaughtException (msg : String)
deriving DecidableEq, Repr

/-- The CLI's response handling: `if r.status_code == 200` process the
feeds, `else` print the status code and body.  (`feeds` is the decoded
`feeds` array of the 200 response.) -/
def cliHandleResponse (status : Nat) (feeds : List Feed) (text : String) :
    CliRespAction :=
  if status = 200 then .processFeeds feeds
  else .printedError ("Error: " ++ toString status ++ " " ++ text)

/-- The CLI wraps `requests.post` in no try/except: a transport-level
failure propagates as an uncaught exception. -/
def cliTransportOutcome (msg : String) : CliRespAction := .uncaughtException msg

/-- What the CLI displays before asking for a choice: `enumerate(
parsed.entries[:10], 1)`. -/
def cliDisplayedTitles (entries : List Entry) : List String :=
  (entries.take 10).map Entry.title

/-- `choice = int(input(...)) - 1` accepted iff `0 <= choice <
len(parsed.entries)` — the full, untruncated entry count. -/
def cliChoiceAccepted (entries : List Entry) (n : Int) : Bool :=
  decide (0 ≤ n - 1 ∧ n - 1 < (entries.length : Int))

/-- The CLI transcript write: format with trailing newline, write to
`transcriptions/<base>.txt` (overwriting). -/
def cliWriteTranscript (fs : FS) (filename : String) (segments : List String) :
    FS × String :=
  let txtOut := transcriptPath filename
  (fsWrite fs txtOut (formatTranscriptCLI segments), txtOut)

structure CliChoiceResult where
  fs : FS
  printed : List String
  downloaded : Option String
  transcriptWritten : Option String
  uncaught : Option String
deriving DecidableEq, Repr

/-- The CLI's episode-choice handling, from reading the choice through
download and transcription.  A transport error during the download is
uncaught (`uncaught` set); the downloaded and transcript paths record what
was written. -/
def cliProcessChoice (fs : FS) (entries : List Entry) (n : Int)
    (fetch : FetchOutcome) (trans : TransOutcome) : CliChoiceResult :=
  let choice := n - 1
  if h : 0 ≤ choice ∧ choice < (entries.length : Int) then
    let entry := entries.get ⟨choice.toNat, by omega⟩
    let audioUrl := audioUrlOf entry
    if pyTruthy audioUrl then
      let filename := urlFilename (audioUrl.getD "")
      let filepath := pathJoin "downloads" filename
      match fetch with
      | .transportError msg =>
          ⟨fs, ["Downloading: " ++ entry.title ++ " -> " ++ filename], none, none, some msg⟩
      | .success content =>
          let fs1 := fsWrite fs filepath content
          match trans with
          | .failure msg =>
              ⟨fs1, ["Downloading: " ++ entry.title ++ " -> " ++ filename,
                     "Downloaded:  " ++ filename], some filepath, none, some msg⟩
          | .success segments =>
              let (fs2, txtOut) := cliWriteTranscript fs1 filename segments
              ⟨fs2, ["Downloading: " ++ entry.title ++ " -> " ++ filename,
                     "Downloaded:  " ++ filename,
                     "Transcription saved to: " ++ txtOut],
               some filepath, some txtOut, none⟩
    else
      ⟨fs, ["No audio found!"], none, none, none⟩
  else
    ⟨fs, ["Invalid choice!"], none, none, none⟩

/-! ### Sample data for witnesses -/

def sampleEnclosure : Enclosure := ⟨"https://cdn.example/ep1.mp3?sig=abc"⟩

def sampleEntry : Entry := ⟨"Episode One", [sampleEnclosure]⟩

def bareEntry : Entry := ⟨"Episode Two", []⟩

def sampleFeedEntries : List Entry := List.replicate 12 sampleEntry

def initGuiState : GuiState := ⟨[], [], "", none⟩

/-! ## Shared lemmas -/

/-- Sanity check that `sha1Hex` computes genuine SHA-1: the standard
test vector for `"abc"`. -/
theorem sha1Hex_abc :
    sha1Hex "abc" = "a9993e364706816aba3e25717850c26c9cd0d89d" := by decide

theorem length_hexNat (k n : Nat) : (hexNat k n).length = k := by
  simp [hexNat]

theorem sha1Hex_length (s : String) : (sha1Hex s).length = 40 := by
  unfold sha1Hex
  obtain ⟨h0, h1, h2, h3, h4⟩ := sha1Words (strUtf8 s)
  simp [length_hexNat]

/-- Writing a file and reading it back returns the new content: a write
replaces whatever was stored at that path. -/
theorem fsRead_fsWrite (fs : FS) (p c : String) : fsRead (fsWrite fs p c) p = some c := by
  simp [fsRead, fsWrite]

/-! ## Claim theorems -/

/-- C1: when the audio fetch fails with a transport error, the work unit
for that episode ends failed — the error signal carries the failure
message into the error dialog and the `"Status: Error occurred"` label,
no transcription is displayed — and the Transcriber is never invoked
(`transcriberInvoked = false`): `DownloadWorker` emits `error`, not
`finished`, and only `finished` is connected to `start_transcription`. -/
theorem download_failure_skips_transcriber (fs : FS) (entry : Entry)
    (u msg : String) (trans : TransOutcome)
    (h₁ : audioUrlOf entry = some u) (h₂ : u ≠ "") :
    runPipeline fs entry (.transportError msg) trans
      = ⟨fs, true, false, some (.critical, msg), some "Status: Error occurred", none⟩ := by
  simp [runPipeline, h₁, pyTruthy, h₂, downloadWorkerRun]

theorem download_failure_skips_transcriber_witness :
    runPipeline [] sampleEntry (.transportError "connection reset") (.success ["x"])
      = ⟨[], true, false, some (.critical, "connection reset"),
         some "Status: Error occurred", none⟩ :=
  download_failure_skips_transcriber [] sampleEntry
    "https://cdn.example/ep1.mp3?sig=abc" "connection reset" (.success ["x"])
    rfl (by decide)

/-- C2: an episode whose feed entry has no enclosure yields an absent
audio URL; the GUI never starts the download worker, goes straight to the
no-audio failure dialog, and writes nothing (the filesystem is returned
unchanged); the CLI path for a chosen enclosure-less entry likewise only
prints `"No audio found!"` and writes nothing. -/
theorem no_enclosure_refuses_download (fs fsc : FS) (entry : Entry)
    (fetch fetch' : FetchOutcome) (trans trans' : TransOutcome)
    (h : entry.enclosures = []) :
    audioUrlOf entry = none
    ∧ runPipeline fs entry fetch trans
      = ⟨fs, false, false, some (.warning, "No audio found for this episode"), none, none⟩
    ∧ cliProcessChoice fsc [entry] 1 fetch' trans'
      = ⟨fsc, ["No audio found!"], none, none, none⟩ := by
  refine ⟨by simp [audioUrlOf, h], ?_, ?_⟩
  · simp [runPipeline, audioUrlOf, h, pyTruthy]
  · have hc : (0 : Int) ≤ 1 - 1 ∧ (1 : Int) - 1 < ([entry].length : Int) := by
      constructor <;> norm_num
    simp only [cliProcessChoice]
    rw [dif_pos hc]
    simp [audioUrlOf, h, pyTruthy]

theorem no_enclosure_refuses_download_witness :
    audioUrlOf bareEntry = none
    ∧ runPipeline [("downloads/old.mp3", "bytes")] bareEntry (.success "data") (.success ["x"])
      = ⟨[("downloads/old.mp3", "bytes")], false, false,
         some (.warning, "No audio found for this episode"), none, none⟩
    ∧ cliProcessChoice [] [bareEntry] 1 (.success "data") (.success ["x"])
      = ⟨[], ["No audio found!"], none, none, none⟩ :=
  no_enclosure_refuses_download [("downloads/old.mp3", "bytes")] [] bareEntry
    (.success "data") (.success "data") (.success ["x"]) (.success ["x"]) rfl

/-- C3: `resolveEpisodes` (the `parsed.entries[:10]` truncation) returns
exactly `min N 10` candidates, position-for-position identical to the
source feed, with no re-sorting; a feed with zero entries resolves to the
valid empty list, and the GUI reports it with an information dialog, not
an error. -/
theorem resolveEpisodes_min_order (entries : List Entry) :
    (resolveEpisodes entries).length = min entries.length 10
    ∧ (∀ i : Nat, i < 10 → (resolveEpisodes entries)[i]? = entries[i]?)
    ∧ (entries = [] → resolveEpisodes entries = []
        ∧ showEpisodes entries = ⟨[], none, some (.information, "No episodes found")⟩) := by
  refine ⟨?_, ?_, ?_⟩
  · simp [resolveEpisodes, Nat.min_comm]
  · intro i hi
    simp only [resolveEpisodes]
    exact List.getElem?_take_of_lt hi
  · rintro rfl
    exact ⟨rfl, rfl⟩

theorem resolveEpisodes_min_order_witness :
    (resolveEpisodes sampleFeedEntries).length = min sampleFeedEntries.length 10
    ∧ (resolveEpisodes sampleFeedEntries)[3]? = sampleFeedEntries[3]?
    ∧ (resolveEpisodes ([] : List Entry) = []
        ∧ showEpisodes ([] : List Entry)
          = ⟨[], none, some (.information, "No episodes found")⟩) :=
  ⟨(resolveEpisodes_min_order sampleFeedEntries).1,
   (resolveEpisodes_min_order sampleFeedEntries).2.1 3 (by decide),
   (resolveEpisodes_min_order ([] : List Entry)).2.2 rfl⟩

/-- C4: every search request carries `X-Auth-Date = str(T)`,
`X-Auth-Key = key`, `Authorization` = the 40-hex-digit SHA-1 digest of
`key + secret + str(T)`, and a User-Agent identifier; CLI and GUI build
the same signature (only the agent string differs), and the CLI posts
exactly these headers with its query URL.  (`sha1Hex_abc` above checks
the digest function against the standard SHA-1 test vector.) -/
theorem search_request_auth_headers (key secret : String) (T : Nat) (q : String) :
    (searchHeadersGUI key secret T).xAuthDate = toString T
    ∧ (searchHeadersGUI key secret T).xAuthKey = key
    ∧ (searchHeadersGUI key secret T).authorization
        = sha1Hex (key ++ secret ++ toString T)
    ∧ (searchHeadersGUI key secret T).authorization.length = 40
    ∧ (searchHeadersGUI key secret T).userAgent = "postcasting-index-python-gui"
    ∧ searchHeadersCLI key secret T =
        { searchHeadersGUI key secret T with userAgent := "postcasting-index-python-cli" }
    ∧ cliSearchPost key secret q T =
        some ("https://api.podcastindex.org/api/1.0/search/byterm?q=" ++ q,
              searchHeadersCLI key secret T) :=
  ⟨rfl, rfl, rfl, sha1Hex_length _, rfl, rfl, rfl⟩

/-- C5 counterexample: the claim says the written transcript ends with a
trailing newline, but the GUI `TranscriptionWorker` writes the joined
segment texts with no trailing newline. -/
theorem gui_transcript_missing_trailing_newline :
    formatTranscriptGUI ["hello"] ≠ specTranscriptContent ["hello"] := by decide

/-- C5 (amended): a successful transcription writes the trimmed segment
texts joined with newline separators to `transcriptions/<base>.txt`,
overwriting any existing file there; the CLI appends the trailing newline
the spec describes, while the GUI writes the joined text without a
trailing newline; an empty segment list is a valid empty transcript, not
an error. -/
theorem transcript_written_content (fs : FS) (audioPath old : String)
    (segments : List String) :
    (transcriptionWorkerRun (fsWrite fs (transcriptPath audioPath) old) audioPath
        (.success segments)).2
      = .finished (formatTranscriptGUI segments) (transcriptPath audioPath)
    ∧ fsRead (transcriptionWorkerRun (fsWrite fs (transcriptPath audioPath) old) audioPath
        (.success segments)).1 (transcriptPath audioPath)
      = some (formatTranscriptGUI segments)
    ∧ cliWriteTranscript fs audioPath segments
      = (fsWrite fs (transcriptPath audioPath) (specTranscriptContent segments),
         transcriptPath audioPath)
    ∧ formatTranscriptCLI segments = specTranscriptContent segments
    ∧ formatTranscriptGUI segments = String.intercalate "\n" (segments.map pyStrip)
    ∧ formatTranscriptGUI [] = "" :=
  ⟨rfl, fsRead_fsWrite _ _ _, rfl, rfl, rfl, rfl⟩

/-- C6 counterexample: the code does not produce three distinguishable
typed error outcomes.  The GUI reacts to a 401 and to a 500 with the same
kind of outcome (the one generic critical dialog), and a transport error
whose message coincides with the HTTP error text is observationally
identical to the 500 response — while the spec-side classifier assigns
them distinct kinds (`AuthError`, `ServiceError`, `NetworkError`). -/
theorem search_error_kinds_collapse :
    (searchPodcasts initGuiState (some "k") (some "s") "history" 0
        (.httpError 401 "denied")).dialog.map Prod.fst
      = (searchPodcasts initGuiState (some "k") (some "s") "history" 0
          (.httpError 500 "boom")).dialog.map Prod.fst
    ∧ searchPodcasts initGuiState (some "k") (some "s") "history" 0
        (.transportError (httpErrorMsg 500))
      = searchPodcasts initGuiState (some "k") (some "s") "history" 0
        (.httpError 500 "boom")
    ∧ specSearchErrorKind (.httpError 401 "denied")
        ≠ specSearchErrorKind (.httpError 500 "boom")
    ∧ specSearchErrorKind (.transportError (httpErrorMsg 500))
        ≠ specSearchErrorKind (.httpError 500 "boom") :=
  ⟨rfl, rfl, by decide, by decide⟩

/-- C6 (amended): every failing search surfaces through one generic,
untyped path.  The GUI shows the critical dialog `Search failed: <cause>`
for 4xx and 5xx responses and for transport failures alike; the CLI
distinguishes only status 200 from non-200, printing the status code and
body on the same path for 401 and any other status, and wraps the request
in no handler, so a transport failure is an uncaught exception. -/
theorem search_error_single_generic_path (st : GuiState)
    (key secret rawQuery body msg text : String) (T status : Nat) (feeds : List Feed)
    (h₁ : key ≠ "") (h₂ : secret ≠ "") (h₃ : pyStrip rawQuery ≠ "") (h₄ : status ≠ 200) :
    (searchPodcasts st (some key) (some secret) rawQuery T (.httpError status body)).dialog
      = some (.critical, "Search failed: " ++ httpErrorMsg status)
    ∧ (searchPodcasts st (some key) (some secret) rawQuery T (.transportError msg)).dialog
      = some (.critical, "Search failed: " ++ msg)
    ∧ cliHandleResponse status feeds text
      = .printedError ("Error: " ++ toString status ++ " " ++ text)
    ∧ cliTransportOutcome msg = .uncaughtException msg := by
  refine ⟨?_, ?_, ?_, rfl⟩ <;>
    simp [searchPodcasts, pyTruthy, h₁, h₂, h₃, cliHandleResponse, h₄, cliTransportOutcome]

theorem search_error_single_generic_path_witness :
    (searchPodcasts initGuiState (some "k") (some "s") "history" 0
        (.httpError 500 "boom")).dialog
      = some (.critical, "Search failed: " ++ httpErrorMsg 500)
    ∧ (searchPodcasts initGuiState (some "k") (some "s") "history" 0
        (.transportError "timed out")).dialog
      = some (.critical, "Search failed: " ++ "timed out")
    ∧ cliHandleResponse 500 [] "boom"
      = .printedError ("Error: " ++ toString 500 ++ " " ++ "boom")
    ∧ cliTransportOutcome "timed out" = .uncaughtException "timed out" :=
  search_error_single_generic_path initGuiState "k" "s" "history" "boom"
    "timed out" "boom" 0 500 [] (by decide) (by decide) (by decide) (by decide)

/-- C7 counterexample: the CLI issues the search request even for the
query that is empty after trimming — it performs no emptiness check
before `requests.post`, so the claim's "no network request is made" fails
on the CLI. -/
theorem cli_posts_empty_query :
    pyStrip "" = "" ∧ (cliSearchPost "k" "s" "" 0).isSome = true :=
  ⟨rfl, rfl⟩

/-- C7 (amended): in the GUI a query that is empty after trimming is
rejected with a warning dialog before any request, leaving the state
untouched, and a non-empty query issues the signed request; the CLI,
however, issues the request unconditionally, with no emptiness check. -/
theorem query_validation (st : GuiState) (key secret rawQuery q : String) (T : Nat)
    (outcome : SearchOutcome) (h₁ : key ≠ "") (h₂ : secret ≠ "") :
    (pyStrip rawQuery = "" →
      searchPodcasts st (some key) (some secret) rawQuery T outcome
        = ⟨st, [], some (.warning, "Please enter a search query")⟩)
    ∧ (pyStrip rawQuery ≠ "" →
        GuiEvent.requestSent (searchHeadersGUI key secret T)
          ∈ (searchPodcasts st (some key) (some secret) rawQuery T outcome).events)
    ∧ (cliSearchPost key secret q T).isSome = true := by
  refine ⟨?_, ?_, rfl⟩
  · intro h₃
    simp [searchPodcasts, pyTruthy, h₁, h₂, h₃]
  · intro h₃
    cases outcome with
    | httpOk feeds =>
        by_cases hf : feeds.isEmpty <;>
          simp [searchPodcasts, pyTruthy, h₁, h₂, h₃, hf]
    | httpError status body => simp [searchPodcasts, pyTruthy, h₁, h₂, h₃]
    | transportError msg => simp [searchPodcasts, pyTruthy, h₁, h₂, h₃]

theorem query_validation_witness :
    (searchPodcasts initGuiState (some "k") (some "s") "   " 0 (.httpOk [])
      = ⟨initGuiState, [], some (.warning, "Please enter a search query")⟩)
    ∧ (GuiEvent.requestSent (searchHeadersGUI "k" "s" 0)
        ∈ (searchPodcasts initGuiState (some "k") (some "s") "history" 0
            (.httpOk [])).events)
    ∧ (cliSearchPost "k" "s" "" 0).isSome = true :=
  ⟨(query_validation initGuiState "k" "s" "   " "" 0 (.httpOk [])
      (by decide) (by decide)).1 (by decide),
   (query_validation initGuiState "k" "s" "history" "" 0 (.httpOk [])
      (by decide) (by decide)).2.1 (by decide),
   (query_validation initGuiState "k" "s" "history" "" 0 (.httpOk [])
      (by decide) (by decide)).2.2⟩

/-- C8: the fetched file's name is the basename of the URL with the query
string stripped (the example URL maps to `ep1.mp3`); a fetch writes to
`downloads/<name>`, and a second fetch of the same URL writes to the same
path and silently overwrites, leaving the second content. -/
theorem url_filename_and_overwrite (fs : FS) (u c₁ c₂ : String) :
    urlFilename "https://cdn.example/ep1.mp3?sig=abc" = "ep1.mp3"
    ∧ urlFilename u = pyBasename (stripQuery u)
    ∧ (downloadWorkerRun fs (urlFilename u) (.success c₁)).2
        = .finished (pathJoin "downloads" (urlFilename u))
    ∧ fsRead ((downloadWorkerRun ((downloadWorkerRun fs (urlFilename u) (.success c₁)).1)
          (urlFilename u) (.success c₂)).1) (pathJoin "downloads" (urlFilename u))
      = some c₂ :=
  ⟨by decide, rfl, rfl, fsRead_fsWrite _ _ _⟩

/-- C9: the CLI displays at most 10 episodes but validates the entered
number `n` against the full entry count (`0 <= n-1 < len(parsed.entries)`),
so for a feed with more than 10 entries every `n` between 11 and the
entry count is accepted, its index lies beyond every displayed position,
and (when the entry has audio) the download proceeds for an episode that
was never displayed. -/
theorem cli_choice_full_range (entries : List Entry) (n : Int) :
    (cliChoiceAccepted entries n = true ↔ (0 ≤ n - 1 ∧ n - 1 < (entries.length : Int)))
    ∧ ((entries.length : Int) > 10 → 11 ≤ n → n ≤ (entries.length : Int) →
        cliChoiceAccepted entries n = true
        ∧ (cliDisplayedTitles entries).length ≤ (n - 1).toNat
        ∧ ∀ (fs : FS) (content : String) (trans : TransOutcome),
            pyTruthy (audioUrlOf (entries.getD (n - 1).toNat bareEntry)) = true →
            (cliProcessChoice fs entries n (.success content) trans).downloaded
              = some (pathJoin "downloads"
                  (urlFilename ((audioUrlOf (entries.getD (n - 1).toNat bareEntry)).getD "")))) := by
  constructor
  · simp [cliChoiceAccepted]
  · intro h10 h11 hn
    have hacc : 0 ≤ n - 1 ∧ n - 1 < (entries.length : Int) := by omega
    have hlt : (n - 1).toNat < entries.length := by omega
    refine ⟨by simp [cliChoiceAccepted]; omega, ?_, ?_⟩
    · have hd : (cliDisplayedTitles entries).length = min 10 entries.length := by
        simp [cliDisplayedTitles]
      omega
    · intro fs content trans htruthy
      have hget : entries.get ⟨(n - 1).toNat, hlt⟩ = entries.getD (n - 1).toNat bareEntry := by
        rw [List.getD_eq_getElem _ _ hlt]
        rfl
      simp only [cliProcessChoice]
      rw [dif_pos hacc]
      simp only [hget, htruthy, if_true]
      cases trans <;> rfl

theorem cli_choice_full_range_witness :
    cliChoiceAccepted sampleFeedEntries 11 = true
    ∧ (cliDisplayedTitles sampleFeedEntries).length ≤ ((11 : Int) - 1).toNat
    ∧ (cliProcessChoice [] sampleFeedEntries 11 (.success "audio")
        (.success ["hi"])).downloaded
      = some (pathJoin "downloads"
          (urlFilename ((audioUrlOf (sampleFeedEntries.getD ((11 : Int) - 1).toNat
            bareEntry)).getD ""))) :=
  ⟨((cli_choice_full_range sampleFeedEntries 11).2 (by decide) (by decide) (by decide)).1,
   ((cli_choice_full_range sampleFeedEntries 11).2 (by decide) (by decide) (by decide)).2.1,
   ((cli_choice_full_range sampleFeedEntries 11).2 (by decide) (by decide) (by decide)).2.2
     [] "audio" (.success ["hi"]) (by decide)⟩

/-- C10: with configured credentials and a non-empty query, the GUI
clears the results list, episodes list and transcription display before
the request is issued (the clear event precedes the request event), so
whenever the outcome is a failure the final state still holds the cleared
widgets — previously displayed results are not preserved on error. -/
theorem search_clears_before_request (st : GuiState) (key secret rawQuery : String)
    (T : Nat) (outcome : SearchOutcome)
    (h₁ : key ≠ "") (h₂ : secret ≠ "") (h₃ : pyStrip rawQuery ≠ "") :
    ((searchPodcasts st (some key) (some secret) rawQuery T outcome).events.take 2
      = [.listsCleared, .requestSent (searchHeadersGUI key secret T)])
    ∧ (outcome.isFailure = true →
        (searchPodcasts st (some key) (some secret) rawQuery T outcome).state
          = { st with resultsList := [], episodesList := [], transcriptionDisplay := "" }) := by
  cases outcome with
  | httpOk feeds =>
      by_cases hf : feeds.isEmpty <;>
        simp [searchPodcasts, pyTruthy, h₁, h₂, h₃, SearchOutcome.isFailure, hf]
  | httpError status body =>
      simp [searchPodcasts, pyTruthy, h₁, h₂, h₃, SearchOutcome.isFailure]
  | transportError msg =>
      simp [searchPodcasts, pyTruthy, h₁, h₂, h₃, SearchOutcome.isFailure]

theorem search_clears_before_request_witness :
    ((searchPodcasts ⟨["Old Show"], ["Old Episode"], "old text", none⟩
        (some "k") (some "s") "history" 0 (.httpError 500 "boom")).events.take 2
      = [.listsCleared, .requestSent (searchHeadersGUI "k" "s" 0)])
    ∧ (searchPodcasts ⟨["Old Show"], ["Old Episode"], "old text", none⟩
        (some "k") (some "s") "history" 0 (.httpError 500 "boom")).state
      = ⟨[], [], "", none⟩ :=
  ⟨(search_clears_before_request ⟨["Old Show"], ["Old Episode"], "old text", none⟩
      "k" "s" "history" 0 (.httpError 500 "boom") (by decide) (by decide) (by decide)).1,
   (search_clears_before_request ⟨["Old Show"], ["Old Episode"], "old text", none⟩
      "k" "s" "history" 0 (.httpError 500 "boom") (by decide) (by decide) (by decide)).2
     rfl⟩

end Podcast
